import Mathlib

/-
Shallow embedding of src/traffic_lights.ino (Dual Traffic Light System,
Arduino sketch).

Modelling conventions:
* The six output pins are a record of Booleans (HIGH = true).
* `millis()` readings are passed in as `Nat` parameters.  All stored-time
  arithmetic on the device is 32-bit unsigned; every subtraction of
  timestamps in the sketch is embedded as `u32sub`, which reduces its
  arguments mod 2^32, so the embedding computes exactly what the
  `unsigned long` arithmetic computes for any tick values.
* Serial output is modelled as a `List String`; `Serial.print` fragments
  that the sketch writes on one line are concatenated into one string.
  Log lines emitted from inside the autonomous cycle are not part of any
  claim and are elided.
* The blocking test sequence (`runTestSequence`) is embedded as an atomic
  step; its fixed total `delay` time (6*1000 + 500 + 3*(300+300) = 8300 ms)
  is the elapsed time between its entry `millis()` and the `millis()` call
  at its end.
* One iteration of `loop()` is `loopIter`: optional incoming line (trimmed,
  then handed to `processCommand`), followed by the AUTO / EMERGENCY timing
  checks.
-/

namespace TrafficLights

/-- Operating modes, from the `Mode` enum of the sketch. -/
inductive Mode where
  | MANUAL
  | AUTO
  | EMERGENCY
deriving DecidableEq

/-- Traffic light states, from the `State` enum of the sketch. -/
inductive State where
  | RED
  | YELLOW
  | GREEN
  | OFF
deriving DecidableEq

/-- The six output pins (HIGH = true): Red/Yellow/Green for each light. -/
structure Pins where
  red1 : Bool
  yellow1 : Bool
  green1 : Bool
  red2 : Bool
  yellow2 : Bool
  green2 : Bool
deriving DecidableEq

/-- The device's global mutable variables, gathered into one record. -/
structure DeviceState where
  currentMode : Mode
  currentState1 : State
  currentState2 : State
  previousState : State
  lastStateChange : Nat
  currentStateDuration : Nat
  emergencyBlinkState : Bool
  pins : Pins
deriving DecidableEq

def GREEN_DURATION : Nat := 5000
def YELLOW_DURATION : Nat := 2000
def RED_DURATION : Nat := 5000
def EMERGENCY_BLINK : Nat := 500

/-- 2^32, the modulus of the platform's `unsigned long` arithmetic. -/
def U32 : Nat := 4294967296

/-- Unsigned 32-bit subtraction `a - b`, as computed by the sketch's
`currentTime - lastStateChange` on `unsigned long` values. -/
def u32sub (a b : Nat) : Nat :=
  (a % U32 + U32 - b % U32) % U32

/-- ASCII uppercase of one character (Arduino `String::toUpperCase`). -/
def strToUpper (s : String) : String :=
  String.mk (s.data.map Char.toUpper)

/-- Whitespace as trimmed by Arduino `String::trim` (isspace set). -/
def isLineSpace (c : Char) : Bool :=
  c == ' ' || (decide (9 ≤ c.toNat) && decide (c.toNat ≤ 13))

/-- Arduino `String::trim`: strip leading and trailing whitespace. -/
def trimLine (s : String) : String :=
  String.mk (((s.data.dropWhile isLineSpace).reverse.dropWhile isLineSpace).reverse)

/-- `setLightState(lightNumber, state)`: drive the three pins of one light
low, then raise the pin for the requested color. -/
def setLightState (p : Pins) (lightNumber : Nat) (s : State) : Pins :=
  if lightNumber = 1 then
    let p := { p with red1 := false, yellow1 := false, green1 := false }
    match s with
    | State.RED => { p with red1 := true }
    | State.YELLOW => { p with yellow1 := true }
    | State.GREEN => { p with green1 := true }
    | State.OFF => p
  else
    let p := { p with red2 := false, yellow2 := false, green2 := false }
    match s with
    | State.RED => { p with red2 := true }
    | State.YELLOW => { p with yellow2 := true }
    | State.GREEN => { p with green2 := true }
    | State.OFF => p

/-- Pin image of driving light 1 to `s1` and light 2 to `s2` (all other
history overwritten). -/
def pinsFor (s1 s2 : State) : Pins :=
  setLightState (setLightState ⟨false, false, false, false, false, false⟩ 1 s1) 2 s2

/-- `advanceTrafficLight()`: light 1 steps GREEN→YELLOW→RED→GREEN (OFF
falls back to RED); light 2 is then derived from the new light-1 state;
both lights are driven to the pins. -/
def advanceTrafficLight (st : DeviceState) : DeviceState :=
  let st := { st with previousState := st.currentState1 }
  let st :=
    match st.currentState1 with
    | State.GREEN =>
        { st with currentState1 := State.YELLOW, currentStateDuration := YELLOW_DURATION }
    | State.YELLOW =>
        { st with currentState1 := State.RED, currentStateDuration := RED_DURATION }
    | State.RED =>
        { st with currentState1 := State.GREEN, currentStateDuration := GREEN_DURATION }
    | State.OFF =>
        { st with currentState1 := State.RED, currentStateDuration := RED_DURATION }
  let st :=
    match st.currentState1 with
    | State.GREEN => { st with currentState2 := State.RED }
    | State.YELLOW => { st with currentState2 := State.GREEN }
    | State.RED => { st with currentState2 := State.GREEN }
    | State.OFF => { st with currentState2 := State.OFF }
  { st with pins := setLightState (setLightState st.pins 1 st.currentState1) 2 st.currentState2 }

/-- Helper for `printMode()`: the text printed for a mode. -/
def printMode (m : Mode) : String :=
  match m with
  | Mode.MANUAL => "MANUAL"
  | Mode.AUTO => "AUTOMATIC"
  | Mode.EMERGENCY => "EMERGENCY"

/-- Helper for `printState()`: the text printed for a light state. -/
def printState (s : State) : String :=
  match s with
  | State.RED => "RED"
  | State.YELLOW => "YELLOW"
  | State.GREEN => "GREEN"
  | State.OFF => "OFF"

/-- The `timeRemaining` value computed by `printStatus()` in AUTO mode:
`currentStateDuration - (millis() - lastStateChange)` in unsigned 32-bit
arithmetic. -/
def statusRemaining (st : DeviceState) (now : Nat) : Nat :=
  let timeInState := u32sub now st.lastStateChange
  u32sub st.currentStateDuration timeInState

/-- `printStatus()`: the status report emitted by the STATUS command. -/
def printStatus (st : DeviceState) (now : Nat) : List String :=
  ["", "=== CURRENT STATUS ===",
   "Mode: " ++ printMode st.currentMode,
   "Light 1: " ++ printState st.currentState1,
   "Light 2: " ++ printState st.currentState2]
  ++ (if st.currentMode = Mode.AUTO then
        ["Time remaining: " ++ toString (statusRemaining st now / 1000) ++ " seconds"]
      else [])
  ++ ["======================", ""]

/-- Total `delay()` milliseconds inside `runTestSequence`:
six 1000 ms color steps, one 500 ms all-off step, three 300+300 ms blinks. -/
def TEST_SEQUENCE_DELAY : Nat := 6 * 1000 + 500 + 3 * (300 + 300)

/-- `runTestSequence()`: saves mode and both light states, walks every
color on each light, all-off, three synchronized all-on/all-off blinks,
then restores the saved mode and states, drives the restored states to the
pins, and sets `lastStateChange = millis()` at completion. -/
def runTestSequence (st : DeviceState) (now : Nat) : DeviceState × List String :=
  let savedMode := st.currentMode
  let savedState1 := st.currentState1
  let savedState2 := st.currentState2
  let p := st.pins
  let p := setLightState p 1 State.RED
  let p := setLightState p 1 State.YELLOW
  let p := setLightState p 1 State.GREEN
  let p := setLightState p 2 State.RED
  let p := setLightState p 2 State.YELLOW
  let p := setLightState p 2 State.GREEN
  let p := setLightState p 1 State.OFF
  let p := setLightState p 2 State.OFF
  let blinkOnce := fun (q : Pins) =>
    let q := { q with red1 := true, yellow1 := true, green1 := true,
                      red2 := true, yellow2 := true, green2 := true }
    { q with red1 := false, yellow1 := false, green1 := false,
             red2 := false, yellow2 := false, green2 := false }
  let p := blinkOnce (blinkOnce (blinkOnce p))
  let p := setLightState p 1 savedState1
  let p := setLightState p 2 savedState2
  ({ st with currentMode := savedMode,
             currentState1 := savedState1,
             currentState2 := savedState2,
             pins := p,
             lastStateChange := now + TEST_SEQUENCE_DELAY },
   ["=== RUNNING TEST SEQUENCE ===",
    "=== TEST COMPLETE ===",
    "Restored Light 1 to: " ++ printState savedState1,
    "Restored Light 2 to: " ++ printState savedState2])

/-- The `if (currentMode != MANUAL) { currentMode = MANUAL; ... }` block
that begins each per-light manual command handler. -/
def forceManual (st : DeviceState) : DeviceState :=
  if st.currentMode ≠ Mode.MANUAL then { st with currentMode := Mode.MANUAL } else st

/-- `processCommand(command)`: returns the new device state, the serial
output, and the milliseconds the handler itself consumed (nonzero only for
the blocking test sequence).  The command string is assumed already
trimmed, as in `loop()`; the handler uppercases it before dispatch. -/
def processCommand (command : String) (st : DeviceState) (now : Nat) :
    DeviceState × List String × Nat :=
  if command.length < 1 then
    (st, [], 0)
  else
    if strToUpper command = "A" then
      ({ st with currentMode := Mode.AUTO,
                 currentState1 := State.RED,
                 currentState2 := State.GREEN,
                 pins := setLightState (setLightState st.pins 1 State.RED) 2 State.GREEN,
                 lastStateChange := now,
                 currentStateDuration := RED_DURATION },
       ["Mode: AUTOMATIC - Traffic lights will cycle automatically"], 0)
    else if strToUpper command = "M" then
      ({ st with currentMode := Mode.MANUAL },
       ["Mode: MANUAL - Use R1/Y1/G1 and R2/Y2/G2 commands to control lights"], 0)
    else if strToUpper command = "E" then
      ({ st with currentMode := Mode.EMERGENCY,
                 pins := setLightState (setLightState st.pins 1 State.OFF) 2 State.OFF,
                 lastStateChange := now,
                 emergencyBlinkState := false },
       ["Mode: EMERGENCY - Both lights flashing red"], 0)
    else if strToUpper command = "R1" then
      let st1 := forceManual st
      ({ st1 with pins := setLightState st1.pins 1 State.RED, currentState1 := State.RED },
       (if st.currentMode ≠ Mode.MANUAL then ["Switched to MANUAL mode"] else [])
         ++ ["Light 1: RED"], 0)
    else if strToUpper command = "Y1" then
      let st1 := forceManual st
      ({ st1 with pins := setLightState st1.pins 1 State.YELLOW, currentState1 := State.YELLOW },
       (if st.currentMode ≠ Mode.MANUAL then ["Switched to MANUAL mode"] else [])
         ++ ["Light 1: YELLOW"], 0)
    else if strToUpper command = "G1" then
      let st1 := forceManual st
      ({ st1 with pins := setLightState st1.pins 1 State.GREEN, currentState1 := State.GREEN },
       (if st.currentMode ≠ Mode.MANUAL then ["Switched to MANUAL mode"] else [])
         ++ ["Light 1: GREEN"], 0)
    else if strToUpper command = "R2" then
      let st1 := forceManual st
      ({ st1 with pins := setLightState st1.pins 2 State.RED, currentState2 := State.RED },
       (if st.currentMode ≠ Mode.MANUAL then ["Switched to MANUAL mode"] else [])
         ++ ["Light 2: RED"], 0)
    else if strToUpper command = "Y2" then
      let st1 := forceManual st
      ({ st1 with pins := setLightState st1.pins 2 State.YELLOW, currentState2 := State.YELLOW },
       (if st.currentMode ≠ Mode.MANUAL then ["Switched to MANUAL mode"] else [])
         ++ ["Light 2: YELLOW"], 0)
    else if strToUpper command = "G2" then
      let st1 := forceManual st
      ({ st1 with pins := setLightState st1.pins 2 State.GREEN, currentState2 := State.GREEN },
       (if st.currentMode ≠ Mode.MANUAL then ["Switched to MANUAL mode"] else [])
         ++ ["Light 2: GREEN"], 0)
    else if strToUpper command = "T" then
      let previousMode := st.currentMode
      let r := runTestSequence st now
      ({ r.1 with currentMode := previousMode },
       r.2 ++ ["Restored mode: " ++ printMode previousMode], TEST_SEQUENCE_DELAY)
    else if strToUpper command = "OFF" then
      ({ st with currentMode := Mode.MANUAL,
                 pins := setLightState (setLightState st.pins 1 State.OFF) 2 State.OFF,
                 currentState1 := State.OFF,
                 currentState2 := State.OFF },
       ["Mode: MANUAL", "All Lights: OFF"], 0)
    else if strToUpper command = "STATUS" then
      (st, printStatus st now, 0)
    else
      (st, ["Error: Unknown command: " ++ strToUpper command,
            "Valid commands: A, M, E, R1/Y1/G1, R2/Y2/G2, T, OFF, STATUS"], 0)

/-- The time-driven tail of `loop()`: the AUTO expiry check
(`currentTime - lastStateChange >= currentStateDuration`) and the
EMERGENCY blink check (`currentTime - lastStateChange >= EMERGENCY_BLINK`),
both on unsigned 32-bit subtraction. -/
def timingStep (st : DeviceState) (now : Nat) : DeviceState :=
  if st.currentMode = Mode.AUTO then
    if st.currentStateDuration ≤ u32sub now st.lastStateChange then
      let st := advanceTrafficLight st
      { st with lastStateChange := now }
    else st
  else if st.currentMode = Mode.EMERGENCY then
    if EMERGENCY_BLINK ≤ u32sub now st.lastStateChange then
      let b := !st.emergencyBlinkState
      { st with emergencyBlinkState := b,
                pins := { st.pins with red1 := b, red2 := b },
                lastStateChange := now }
    else st
  else st

/-- One iteration of `loop()` at time `now`: optionally read one line,
trim it, process it (the handler may itself consume time), then run the
timing checks at the current `millis()` reading. -/
def loopIter (st : DeviceState) (line : Option String) (now : Nat) :
    DeviceState × List String :=
  match line with
  | some l =>
      let r := processCommand (trimLine l) st now
      (timingStep r.1 (now + r.2.2), r.2.1)
  | none => (timingStep st now, [])

/-- A command-free loop iteration. -/
def tick (st : DeviceState) (now : Nat) : DeviceState :=
  (loopIter st none now).1

/-- Run command-free loop iterations at the given sequence of times. -/
def ticksRun (st : DeviceState) (ts : List Nat) : DeviceState :=
  ts.foldl tick st

/-- Run loop iterations for a sequence of (optional line, time) events. -/
def run (st : DeviceState) (evs : List (Option String × Nat)) : DeviceState :=
  evs.foldl (fun s e => (loopIter s e.1 e.2).1) st

/-- The device state after `setup()` completed at `millis() = t0`:
AUTO mode, light 1 RED, light 2 GREEN, driven to the pins. -/
def initState (t0 : Nat) : DeviceState :=
  { currentMode := Mode.AUTO,
    currentState1 := State.RED,
    currentState2 := State.GREEN,
    previousState := State.OFF,
    lastStateChange := t0,
    currentStateDuration := RED_DURATION,
    emergencyBlinkState := false,
    pins := setLightState (setLightState
              (setLightState (setLightState ⟨false, false, false, false, false, false⟩
                1 State.OFF) 2 State.OFF) 1 State.RED) 2 State.GREEN }

/-! ## Helper lemmas -/

lemma setLight12_eq_pinsFor (p : Pins) (a b : State) :
    setLightState (setLightState p 1 a) 2 b = pinsFor a b := by
  cases p
  cases a <;> cases b <;> rfl

/-- The opposite-phase coupling between the two stored light states that
AUTO mode maintains. -/
def Coupled (st : DeviceState) : Prop :=
  (st.currentState1 = State.RED ∧ st.currentState2 = State.GREEN) ∨
  (st.currentState1 = State.GREEN ∧ st.currentState2 = State.RED) ∨
  (st.currentState1 = State.YELLOW ∧ st.currentState2 = State.GREEN)

/-- Inductive invariant: whenever the device is in AUTO mode, the two
stored states are opposite-phase coupled and the pins reflect them. -/
def DeviceInv (st : DeviceState) : Prop :=
  st.currentMode = Mode.AUTO →
    Coupled st ∧ st.pins = pinsFor st.currentState1 st.currentState2

lemma deviceInv_initState (t0 : Nat) : DeviceInv (initState t0) := by
  intro _
  exact ⟨Or.inl ⟨rfl, rfl⟩, rfl⟩

lemma forceManual_eq (st : DeviceState) :
    forceManual st = { st with currentMode := Mode.MANUAL } := by
  unfold forceManual
  split
  · rfl
  · rename_i hn
    have hm : st.currentMode = Mode.MANUAL := not_not.mp hn
    cases st
    simp_all

lemma deviceInv_processCommand (c : String) (st : DeviceState) (now : Nat)
    (h : DeviceInv st) : DeviceInv (processCommand c st now).1 := by
  unfold processCommand
  by_cases h0 : c.length < 1
  · rw [if_pos h0]; exact h
  rw [if_neg h0]
  by_cases h1 : strToUpper c = "A"
  · rw [if_pos h1]
    intro _
    refine ⟨Or.inl ⟨rfl, rfl⟩, ?_⟩
    exact setLight12_eq_pinsFor st.pins State.RED State.GREEN
  rw [if_neg h1]
  by_cases h2 : strToUpper c = "M"
  · rw [if_pos h2]; intro hA; simp at hA
  rw [if_neg h2]
  by_cases h3 : strToUpper c = "E"
  · rw [if_pos h3]; intro hA; simp at hA
  rw [if_neg h3]
  by_cases h4 : strToUpper c = "R1"
  · rw [if_pos h4]
    intro hA
    simp [forceManual_eq] at hA
  rw [if_neg h4]
  by_cases h5 : strToUpper c = "Y1"
  · rw [if_pos h5]
    intro hA
    simp [forceManual_eq] at hA
  rw [if_neg h5]
  by_cases h6 : strToUpper c = "G1"
  · rw [if_pos h6]
    intro hA
    simp [forceManual_eq] at hA
  rw [if_neg h6]
  by_cases h7 : strToUpper c = "R2"
  · rw [if_pos h7]
    intro hA
    simp [forceManual_eq] at hA
  rw [if_neg h7]
  by_cases h8 : strToUpper c = "Y2"
  · rw [if_pos h8]
    intro hA
    simp [forceManual_eq] at hA
  rw [if_neg h8]
  by_cases h9 : strToUpper c = "G2"
  · rw [if_pos h9]
    intro hA
    simp [forceManual_eq] at hA
  rw [if_neg h9]
  by_cases h10 : strToUpper c = "T"
  · rw [if_pos h10]
    intro hA
    refine ⟨(h hA).1, ?_⟩
    exact setLight12_eq_pinsFor _ st.currentState1 st.currentState2
  rw [if_neg h10]
  by_cases h11 : strToUpper c = "OFF"
  · rw [if_pos h11]; intro hA; simp at hA
  rw [if_neg h11]
  by_cases h12 : strToUpper c = "STATUS"
  · rw [if_pos h12]; exact h
  rw [if_neg h12]
  exact h

lemma deviceInv_timingStep (st : DeviceState) (now : Nat)
    (h : DeviceInv st) : DeviceInv (timingStep st now) := by
  unfold timingStep
  split
  · rename_i hm
    split
    · intro _
      obtain ⟨hc, _⟩ := h hm
      rcases hc with ⟨h1, h2⟩ | ⟨h1, h2⟩ | ⟨h1, h2⟩ <;>
        simp [advanceTrafficLight, Coupled, h1, h2, setLight12_eq_pinsFor]
    · exact h
  · split
    · rename_i hm _
      split
      · intro hA
        exact absurd hA hm
      · exact h
    · exact h

lemma deviceInv_loopIter (st : DeviceState) (line : Option String) (now : Nat)
    (h : DeviceInv st) : DeviceInv (loopIter st line now).1 := by
  cases line with
  | none => exact deviceInv_timingStep st now h
  | some l =>
      exact deviceInv_timingStep _ _ (deviceInv_processCommand _ st now h)

lemma deviceInv_run (st : DeviceState) (evs : List (Option String × Nat))
    (h : DeviceInv st) : DeviceInv (run st evs) := by
  induction evs generalizing st with
  | nil => exact h
  | cons e evs ih =>
      exact ih _ (deviceInv_loopIter st e.1 e.2 h)

/-! ## Claims -/

/-- C10: in every device state reachable from the initial state by any
sequence of commands and loop iterations, if the mode is AUTO then light
1's stored state is never OFF, light 2 is GREEN exactly when light 1 is
RED or YELLOW, and light 2 is RED exactly when light 1 is GREEN. -/
theorem auto_reachable_coupling (t0 : Nat) (evs : List (Option String × Nat))
    (h : (run (initState t0) evs).currentMode = Mode.AUTO) :
    (run (initState t0) evs).currentState1 ≠ State.OFF ∧
    ((run (initState t0) evs).currentState2 = State.GREEN ↔
      ((run (initState t0) evs).currentState1 = State.RED ∨
       (run (initState t0) evs).currentState1 = State.YELLOW)) ∧
    ((run (initState t0) evs).currentState2 = State.RED ↔
      (run (initState t0) evs).currentState1 = State.GREEN) := by
  obtain ⟨hc, _⟩ := deviceInv_run (initState t0) evs (deviceInv_initState t0) h
  rcases hc with ⟨h1, h2⟩ | ⟨h1, h2⟩ | ⟨h1, h2⟩ <;> rw [h1, h2] <;>
    refine ⟨by decide, ?_, ?_⟩ <;> simp

/-- C10 witness: the initial state itself is a reachable AUTO state
satisfying the coupling. -/
theorem auto_reachable_coupling_witness :
    (run (initState 0) []).currentState1 ≠ State.OFF ∧
    ((run (initState 0) []).currentState2 = State.GREEN ↔
      ((run (initState 0) []).currentState1 = State.RED ∨
       (run (initState 0) []).currentState1 = State.YELLOW)) ∧
    ((run (initState 0) []).currentState2 = State.RED ↔
      (run (initState 0) []).currentState1 = State.GREEN) :=
  auto_reachable_coupling 0 [] rfl

/-- C1 counterexample: the claim quantifies over all modes, but from the
initial state the single manual command G1 (processed at time 0) reaches a
state in which both stored states are GREEN and both green output pins are
HIGH simultaneously. -/
theorem bothGreen_reachable_counterexample :
    (run (initState 0) [(some "G1", 0)]).currentState1 = State.GREEN ∧
    (run (initState 0) [(some "G1", 0)]).currentState2 = State.GREEN ∧
    (run (initState 0) [(some "G1", 0)]).pins.green1 = true ∧
    (run (initState 0) [(some "G1", 0)]).pins.green2 = true := by
  decide

/-- C1 amended: in every reachable state whose mode is AUTO, the two
stored states are never both GREEN and the two green output pins are never
both HIGH; in MANUAL mode per-light commands can drive both lights green. -/
theorem auto_never_both_green (t0 : Nat) (evs : List (Option String × Nat))
    (h : (run (initState t0) evs).currentMode = Mode.AUTO) :
    ¬((run (initState t0) evs).currentState1 = State.GREEN ∧
      (run (initState t0) evs).currentState2 = State.GREEN) ∧
    ¬((run (initState t0) evs).pins.green1 = true ∧
      (run (initState t0) evs).pins.green2 = true) := by
  obtain ⟨hc, hp⟩ := deviceInv_run (initState t0) evs (deviceInv_initState t0) h
  rcases hc with ⟨h1, h2⟩ | ⟨h1, h2⟩ | ⟨h1, h2⟩ <;> rw [hp, h1, h2] <;> simp <;> decide

/-- C1 amended witness: the initial state is a reachable AUTO state. -/
theorem auto_never_both_green_witness :
    ¬((run (initState 0) []).currentState1 = State.GREEN ∧
      (run (initState 0) []).currentState2 = State.GREEN) ∧
    ¬((run (initState 0) []).pins.green1 = true ∧
      (run (initState 0) []).pins.green2 = true) :=
  auto_never_both_green 0 [] rfl

/-- C3: from every starting mode and pair of light states, the T command
runs the test sequence and on completion restores exactly the saved mode
and both saved light states, drives the restored states back to the output
pins, leaves the state duration unchanged, and resets the cycle timer to
the completion instant, so a restored AUTO state receives a fresh full
duration. -/
theorem test_sequence_restores (st : DeviceState) (now : Nat) :
    (processCommand "T" st now).1.currentMode = st.currentMode ∧
    (processCommand "T" st now).1.currentState1 = st.currentState1 ∧
    (processCommand "T" st now).1.currentState2 = st.currentState2 ∧
    (processCommand "T" st now).1.pins = pinsFor st.currentState1 st.currentState2 ∧
    (processCommand "T" st now).1.lastStateChange = now + TEST_SEQUENCE_DELAY ∧
    (processCommand "T" st now).1.currentStateDuration = st.currentStateDuration := by
  refine ⟨rfl, rfl, rfl, ?_, rfl, rfl⟩
  exact setLight12_eq_pinsFor _ st.currentState1 st.currentState2

/-- C4: each per-light command R1/Y1/G1/R2/Y2/G2, from every starting mode
and state pair, leaves the device in MANUAL mode, sets the addressed
light's stored state and pins to the requested color, and leaves the other
light's stored state and all three of its output pins unchanged. -/
theorem manual_command_frame (st : DeviceState) (now : Nat) :
    ((processCommand "R1" st now).1.currentMode = Mode.MANUAL ∧
     (processCommand "R1" st now).1.currentState1 = State.RED ∧
     (processCommand "R1" st now).1.pins.red1 = true ∧
     (processCommand "R1" st now).1.pins.yellow1 = false ∧
     (processCommand "R1" st now).1.pins.green1 = false ∧
     (processCommand "R1" st now).1.currentState2 = st.currentState2 ∧
     (processCommand "R1" st now).1.pins.red2 = st.pins.red2 ∧
     (processCommand "R1" st now).1.pins.yellow2 = st.pins.yellow2 ∧
     (processCommand "R1" st now).1.pins.green2 = st.pins.green2) ∧
    ((processCommand "Y1" st now).1.currentMode = Mode.MANUAL ∧
     (processCommand "Y1" st now).1.currentState1 = State.YELLOW ∧
     (processCommand "Y1" st now).1.pins.yellow1 = true ∧
     (processCommand "Y1" st now).1.pins.red1 = false ∧
     (processCommand "Y1" st now).1.pins.green1 = false ∧
     (processCommand "Y1" st now).1.currentState2 = st.currentState2 ∧
     (processCommand "Y1" st now).1.pins.red2 = st.pins.red2 ∧
     (processCommand "Y1" st now).1.pins.yellow2 = st.pins.yellow2 ∧
     (processCommand "Y1" st now).1.pins.green2 = st.pins.green2) ∧
    ((processCommand "G1" st now).1.currentMode = Mode.MANUAL ∧
     (processCommand "G1" st now).1.currentState1 = State.GREEN ∧
     (processCommand "G1" st now).1.pins.green1 = true ∧
     (processCommand "G1" st now).1.pins.red1 = false ∧
     (processCommand "G1" st now).1.pins.yellow1 = false ∧
     (processCommand "G1" st now).1.currentState2 = st.currentState2 ∧
     (processCommand "G1" st now).1.pins.red2 = st.pins.red2 ∧
     (processCommand "G1" st now).1.pins.yellow2 = st.pins.yellow2 ∧
     (processCommand "G1" st now).1.pins.green2 = st.pins.green2) ∧
    ((processCommand "R2" st now).1.currentMode = Mode.MANUAL ∧
     (processCommand "R2" st now).1.currentState2 = State.RED ∧
     (processCommand "R2" st now).1.pins.red2 = true ∧
     (processCommand "R2" st now).1.pins.yellow2 = false ∧
     (processCommand "R2" st now).1.pins.green2 = false ∧
     (processCommand "R2" st now).1.currentState1 = st.currentState1 ∧
     (processCommand "R2" st now).1.pins.red1 = st.pins.red1 ∧
     (processCommand "R2" st now).1.pins.yellow1 = st.pins.yellow1 ∧
     (processCommand "R2" st now).1.pins.green1 = st.pins.green1) ∧
    ((processCommand "Y2" st now).1.currentMode = Mode.MANUAL ∧
     (processCommand "Y2" st now).1.currentState2 = State.YELLOW ∧
     (processCommand "Y2" st now).1.pins.yellow2 = true ∧
     (processCommand "Y2" st now).1.pins.red2 = false ∧
     (processCommand "Y2" st now).1.pins.green2 = false ∧
     (processCommand "Y2" st now).1.currentState1 = st.currentState1 ∧
     (processCommand "Y2" st now).1.pins.red1 = st.pins.red1 ∧
     (processCommand "Y2" st now).1.pins.yellow1 = st.pins.yellow1 ∧
     (processCommand "Y2" st now).1.pins.green1 = st.pins.green1) ∧
    ((processCommand "G2" st now).1.currentMode = Mode.MANUAL ∧
     (processCommand "G2" st now).1.currentState2 = State.GREEN ∧
     (processCommand "G2" st now).1.pins.green2 = true ∧
     (processCommand "G2" st now).1.pins.red2 = false ∧
     (processCommand "G2" st now).1.pins.yellow2 = false ∧
     (processCommand "G2" st now).1.currentState1 = st.currentState1 ∧
     (processCommand "G2" st now).1.pins.red1 = st.pins.red1 ∧
     (processCommand "G2" st now).1.pins.yellow1 = st.pins.yellow1 ∧
     (processCommand "G2" st now).1.pins.green1 = st.pins.green1) := by
  have hR1 : (processCommand "R1" st now).1 =
      { forceManual st with
        currentState1 := State.RED
        pins := setLightState (forceManual st).pins 1 State.RED } := rfl
  have hY1 : (processCommand "Y1" st now).1 =
      { forceManual st with
        currentState1 := State.YELLOW
        pins := setLightState (forceManual st).pins 1 State.YELLOW } := rfl
  have hG1 : (processCommand "G1" st now).1 =
      { forceManual st with
        currentState1 := State.GREEN
        pins := setLightState (forceManual st).pins 1 State.GREEN } := rfl
  have hR2 : (processCommand "R2" st now).1 =
      { forceManual st with
        currentState2 := State.RED
        pins := setLightState (forceManual st).pins 2 State.RED } := rfl
  have hY2 : (processCommand "Y2" st now).1 =
      { forceManual st with
        currentState2 := State.YELLOW
        pins := setLightState (forceManual st).pins 2 State.YELLOW } := rfl
  have hG2 : (processCommand "G2" st now).1 =
      { forceManual st with
        currentState2 := State.GREEN
        pins := setLightState (forceManual st).pins 2 State.GREEN } := rfl
  rw [forceManual_eq] at hR1 hY1 hG1 hR2 hY2 hG2
  rw [hR1, hY1, hG1, hR2, hY2, hG2]
  simp [setLightState]

/-- C6: an empty (zero length after trimming) line is ignored silently
with no output and no state change, and a loop iteration that reads it
behaves exactly like one that read nothing; a non-empty unrecognized line
produces the unknown-command notice and leaves the whole device state
(mode, both light states, all timing variables) unchanged. -/
theorem command_error_handling :
    (∀ (st : DeviceState) (now : Nat) (line : String),
        (trimLine line).length < 1 →
        processCommand (trimLine line) st now = (st, [], 0)) ∧
    (∀ (st : DeviceState) (now : Nat) (line : String),
        (trimLine line).length < 1 →
        loopIter st (some line) now = loopIter st none now) ∧
    (∀ (st : DeviceState) (now : Nat) (cmd : String),
        1 ≤ cmd.length →
        strToUpper cmd ∉ (["A", "M", "E", "R1", "Y1", "G1", "R2", "Y2", "G2",
                           "T", "OFF", "STATUS"] : List String) →
        (processCommand cmd st now).1 = st ∧
        (processCommand cmd st now).2.1 =
          ["Error: Unknown command: " ++ strToUpper cmd,
           "Valid commands: A, M, E, R1/Y1/G1, R2/Y2/G2, T, OFF, STATUS"] ∧
        (processCommand cmd st now).2.2 = 0) := by
  have p1 : ∀ (st : DeviceState) (now : Nat) (line : String),
      (trimLine line).length < 1 →
      processCommand (trimLine line) st now = (st, [], 0) := by
    intro st now line h
    unfold processCommand
    rw [if_pos h]
  refine ⟨p1, ?_, ?_⟩
  · intro st now line h
    simp only [loopIter, p1 st now line h]
    rw [Nat.add_zero]
  · intro st now cmd h1 h2
    simp only [List.mem_cons, List.not_mem_nil, or_false, not_or] at h2
    obtain ⟨n1, n2, n3, n4, n5, n6, n7, n8, n9, n10, n11, n12⟩ := h2
    unfold processCommand
    rw [if_neg (by omega : ¬cmd.length < 1), if_neg n1, if_neg n2, if_neg n3,
        if_neg n4, if_neg n5, if_neg n6, if_neg n7, if_neg n8, if_neg n9,
        if_neg n10, if_neg n11, if_neg n12]
    exact ⟨rfl, rfl, rfl⟩

/-- C6 witness: the empty line and the whitespace line are silently
ignored, and a concrete unrecognized command leaves the state unchanged. -/
theorem command_error_handling_witness :
    processCommand (trimLine "") (initState 0) 0 = (initState 0, [], 0) ∧
    loopIter (initState 0) (some " ") 5 = loopIter (initState 0) none 5 ∧
    (processCommand "XYZ" (initState 0) 0).1 = initState 0 :=
  ⟨command_error_handling.1 (initState 0) 0 "" (by decide),
   command_error_handling.2.1 (initState 0) 5 " " (by decide),
   (command_error_handling.2.2 (initState 0) 0 "XYZ" (by decide) (by decide)).1⟩

/-- C7: the elapsed-time comparison used by both timing checks of `loop()`
is unsigned wraparound-safe subtraction: for every stored timestamp and
true elapsed time below 2^32, the computed elapsed value equals the true
one and the duration comparison decides correctly, even when the current
reading has wrapped past the maximum tick value. -/
theorem wraparound_elapsed_correct (last d dur : Nat)
    (hl : last < U32) (hd : d < U32) :
    u32sub ((last + d) % U32) last = d ∧
    ((dur ≤ u32sub ((last + d) % U32) last) ↔ dur ≤ d) := by
  have he : u32sub ((last + d) % U32) last = d := by
    simp only [u32sub, U32] at hl hd ⊢
    omega
  exact ⟨he, by rw [he]⟩

/-- C7 witness: a wrapped current reading (stored timestamp 100 ticks
before wraparound, 600 ms elapsed, current reading 500). -/
theorem wraparound_elapsed_correct_witness :
    u32sub ((4294967196 + 600) % U32) 4294967196 = 600 ∧
    ((500 ≤ u32sub ((4294967196 + 600) % U32) 4294967196) ↔ 500 ≤ 600) :=
  wraparound_elapsed_correct 4294967196 600 500 (by decide) (by decide)

/-- C8: if STATUS is processed in AUTO mode at an instant when the elapsed
time in the current state exceeds its duration (command processing runs
before the timing check of the same loop iteration, whose output is the
pre-advance status report), the remaining-time subtraction underflows:
the reported value is 2^32 minus the overshoot, never zero. -/
theorem status_remaining_underflow (st : DeviceState) (now : Nat)
    (hmode : st.currentMode = Mode.AUTO)
    (hdur : st.currentStateDuration < U32)
    (hover : st.currentStateDuration < u32sub now st.lastStateChange) :
    statusRemaining st now =
      U32 - (u32sub now st.lastStateChange - st.currentStateDuration) ∧
    statusRemaining st now ≠ 0 ∧
    ("Time remaining: " ++ toString (statusRemaining st now / 1000) ++ " seconds")
        ∈ printStatus st now ∧
    (loopIter st (some "STATUS") now).2 = printStatus st now := by
  have harith : statusRemaining st now =
      U32 - (u32sub now st.lastStateChange - st.currentStateDuration) ∧
      statusRemaining st now ≠ 0 := by
    simp only [statusRemaining, u32sub, U32] at hdur hover ⊢
    omega
  refine ⟨harith.1, harith.2, ?_, rfl⟩
  simp [printStatus, hmode]

/-- C8 witness: from the initial AUTO state, STATUS processed at 5001 ms
(1 ms after the 5000 ms RED duration expired) reports 2^32 - 1 ms. -/
theorem status_remaining_underflow_witness :
    statusRemaining (initState 0) 5001 =
      U32 - (u32sub 5001 (initState 0).lastStateChange -
             (initState 0).currentStateDuration) ∧
    statusRemaining (initState 0) 5001 ≠ 0 ∧
    ("Time remaining: " ++ toString (statusRemaining (initState 0) 5001 / 1000) ++ " seconds")
        ∈ printStatus (initState 0) 5001 ∧
    (loopIter (initState 0) (some "STATUS") 5001).2 = printStatus (initState 0) 5001 :=
  status_remaining_underflow (initState 0) 5001 rfl (by decide) (by decide)

/-! ## EMERGENCY mode machinery -/

/-- Invariant maintained by the EMERGENCY blink loop: EMERGENCY mode,
yellow and green outputs low, both red outputs equal to the blink flag. -/
def EmergInv (s : DeviceState) : Prop :=
  s.currentMode = Mode.EMERGENCY ∧
  s.pins.yellow1 = false ∧ s.pins.green1 = false ∧
  s.pins.yellow2 = false ∧ s.pins.green2 = false ∧
  s.pins.red1 = s.emergencyBlinkState ∧ s.pins.red2 = s.emergencyBlinkState

lemma emergInv_tick (s : DeviceState) (n : Nat) (h : EmergInv s) :
    EmergInv (tick s n) ∧
    (tick s n).emergencyBlinkState =
      (if EMERGENCY_BLINK ≤ u32sub n s.lastStateChange
       then !s.emergencyBlinkState else s.emergencyBlinkState) ∧
    (EMERGENCY_BLINK ≤ u32sub n s.lastStateChange → (tick s n).lastStateChange = n) ∧
    (tick s n).currentState1 = s.currentState1 ∧
    (tick s n).currentState2 = s.currentState2 := by
  obtain ⟨hm, hy1, hg1, hy2, hg2, hr1, hr2⟩ := h
  have ht : tick s n = timingStep s n := rfl
  rw [ht]
  unfold timingStep
  rw [if_neg (show ¬s.currentMode = Mode.AUTO by rw [hm]; decide), if_pos hm]
  by_cases hb : EMERGENCY_BLINK ≤ u32sub n s.lastStateChange
  · simp only [if_pos hb]
    refine ⟨⟨hm, hy1, hg1, hy2, hg2, rfl, rfl⟩, ?_, ?_, ?_, ?_⟩ <;>
      simp
  · simp only [if_neg hb]
    refine ⟨⟨hm, hy1, hg1, hy2, hg2, hr1, hr2⟩, ?_, ?_, ?_, ?_⟩ <;>
      first | trivial | rfl | (intro hb2; exact absurd hb2 hb)

lemma emergInv_ticksRun (s : DeviceState) (ts : List Nat) (h : EmergInv s) :
    EmergInv (ticksRun s ts) ∧
    (ticksRun s ts).currentState1 = s.currentState1 ∧
    (ticksRun s ts).currentState2 = s.currentState2 := by
  induction ts generalizing s with
  | nil => exact ⟨h, rfl, rfl⟩
  | cons t ts ih =>
      obtain ⟨h1, _, _, h4, h5⟩ := emergInv_tick s t h
      obtain ⟨g1, g2, g3⟩ := ih (tick s t) h1
      have hc : ticksRun s (t :: ts) = ticksRun (tick s t) ts := rfl
      rw [hc]
      exact ⟨g1, g2.trans h4, g3.trans h5⟩

lemma emergInv_entry (st : DeviceState) (now : Nat) :
    EmergInv (processCommand "E" st now).1 :=
  ⟨rfl, rfl, rfl, rfl, rfl, rfl, rfl⟩

/-- C5: entering EMERGENCY drives all six pins low, resets the blink flag
and the blink timer; afterwards, each command-free iteration toggles the
blink flag (and with it both red pins, in unison) exactly when 500 ms have
elapsed since the last change, resetting the timer on toggle; across every
tick sequence no yellow or green output ever goes high and both red pins
always equal the blink flag. -/
theorem emergency_blink_behavior (st : DeviceState) (now : Nat) :
    ((processCommand "E" st now).1.currentMode = Mode.EMERGENCY ∧
     (processCommand "E" st now).1.pins = ⟨false, false, false, false, false, false⟩ ∧
     (processCommand "E" st now).1.emergencyBlinkState = false ∧
     (processCommand "E" st now).1.lastStateChange = now) ∧
    (∀ (s : DeviceState) (n : Nat), EmergInv s →
        EmergInv (tick s n) ∧
        (tick s n).emergencyBlinkState =
          (if EMERGENCY_BLINK ≤ u32sub n s.lastStateChange
           then !s.emergencyBlinkState else s.emergencyBlinkState) ∧
        (EMERGENCY_BLINK ≤ u32sub n s.lastStateChange →
          (tick s n).lastStateChange = n)) ∧
    (∀ ts : List Nat, EmergInv (ticksRun (processCommand "E" st now).1 ts)) := by
  refine ⟨⟨rfl, ?_, rfl, rfl⟩, ?_, ?_⟩
  · exact (setLight12_eq_pinsFor st.pins State.OFF State.OFF).trans rfl
  · intro s n hs
    obtain ⟨g1, g2, g3, _, _⟩ := emergInv_tick s n hs
    exact ⟨g1, g2, g3⟩
  · intro ts
    exact (emergInv_ticksRun _ ts (emergInv_entry st now)).1

/-- C5 witness: entering EMERGENCY at time 0 and ticking at 600 ms keeps
the invariant and toggles the blink flag to true. -/
theorem emergency_blink_behavior_witness :
    EmergInv (tick (processCommand "E" (initState 0) 0).1 600) ∧
    (tick (processCommand "E" (initState 0) 0).1 600).emergencyBlinkState = true := by
  have h := emergency_blink_behavior (initState 0) 0
  have hE : EmergInv (processCommand "E" (initState 0) 0).1 := h.2.2 []
  obtain ⟨g1, g2, _⟩ := h.2.1 _ 600 hE
  refine ⟨g1, ?_⟩
  rw [g2]
  decide

/-- C9 counterexample: entering EMERGENCY from the initial AUTO state does
not store OFF in the light states; light 1 stays RED and light 2 stays
GREEN, and STATUS issued in EMERGENCY reports "Light 1: RED", not OFF. -/
theorem emergency_states_not_off_counterexample :
    (processCommand "E" (initState 0) 0).1.currentState1 = State.RED ∧
    (processCommand "E" (initState 0) 0).1.currentState2 = State.GREEN ∧
    ¬(processCommand "E" (initState 0) 0).1.currentState1 = State.OFF ∧
    "Light 1: RED" ∈ printStatus (processCommand "E" (initState 0) 0).1 100 := by
  decide

/-- C9 amended: the EMERGENCY blink writes the red pins directly and never
touches the stored light states, which also are not changed on entry; so
after command E and any tick sequence both stored states still hold their
pre-entry values, STATUS reports those pre-entry colors even while the red
LEDs flash, and the diagnostic routine saves and restores those pre-entry
colors. -/
theorem emergency_states_pre_entry (st : DeviceState) (t0 : Nat) (ts : List Nat)
    (t1 t2 : Nat) :
    (ticksRun (processCommand "E" st t0).1 ts).currentState1 = st.currentState1 ∧
    (ticksRun (processCommand "E" st t0).1 ts).currentState2 = st.currentState2 ∧
    ("Light 1: " ++ printState st.currentState1)
        ∈ printStatus (ticksRun (processCommand "E" st t0).1 ts) t1 ∧
    ("Light 2: " ++ printState st.currentState2)
        ∈ printStatus (ticksRun (processCommand "E" st t0).1 ts) t1 ∧
    (processCommand "T" (ticksRun (processCommand "E" st t0).1 ts) t2).1.currentState1
        = st.currentState1 ∧
    (processCommand "T" (ticksRun (processCommand "E" st t0).1 ts) t2).1.currentState2
        = st.currentState2 := by
  obtain ⟨_, h1, h2⟩ := emergInv_ticksRun _ ts (emergInv_entry st t0)
  have g1 : (ticksRun (processCommand "E" st t0).1 ts).currentState1 = st.currentState1 := h1
  have g2 : (ticksRun (processCommand "E" st t0).1 ts).currentState2 = st.currentState2 := h2
  refine ⟨g1, g2, ?_, ?_, ?_, ?_⟩
  · simp [printStatus, g1]
  · simp [printStatus, g2]
  · exact g1
  · exact g2

/-! ## AUTO cycle machinery -/

lemma tick_auto_advance (s : DeviceState) (n : Nat)
    (hm : s.currentMode = Mode.AUTO)
    (hexp : s.currentStateDuration ≤ u32sub n s.lastStateChange) :
    tick s n = { advanceTrafficLight s with lastStateChange := n } := by
  have ht : tick s n = timingStep s n := rfl
  rw [ht]
  unfold timingStep
  rw [if_pos hm, if_pos hexp]

lemma tick_auto_wait (s : DeviceState) (n : Nat)
    (hm : s.currentMode = Mode.AUTO)
    (hexp : ¬s.currentStateDuration ≤ u32sub n s.lastStateChange) :
    tick s n = s := by
  have ht : tick s n = timingStep s n := rfl
  rw [ht]
  unfold timingStep
  rw [if_pos hm, if_neg hexp]

/-- C2: after command A at time t0 (from any prior state), light 1 is RED
with a 5000 ms duration and light 2 GREEN; command-free iterations before
t0+5000 change nothing; the iteration at t0+5000 yields GREEN/RED
(5000 ms), at t0+10000 YELLOW/GREEN (2000 ms), and at t0+12000 RED/GREEN
(5000 ms) again — a 12000 ms period; and at every advance light 2 is GREEN
exactly when light 1 is RED or YELLOW and RED exactly when light 1 is
GREEN. -/
theorem auto_cycle_after_A (st : DeviceState) (t0 : Nat)
    (h : t0 + 12000 < U32) :
    (processCommand "A" st t0).1.currentState1 = State.RED ∧
    (processCommand "A" st t0).1.currentState2 = State.GREEN ∧
    (processCommand "A" st t0).1.currentStateDuration = RED_DURATION ∧
    (∀ u, t0 ≤ u → u < t0 + 5000 →
      tick (processCommand "A" st t0).1 u = (processCommand "A" st t0).1) ∧
    (tick (processCommand "A" st t0).1 (t0 + 5000)).currentState1 = State.GREEN ∧
    (tick (processCommand "A" st t0).1 (t0 + 5000)).currentState2 = State.RED ∧
    (tick (processCommand "A" st t0).1 (t0 + 5000)).currentStateDuration
        = GREEN_DURATION ∧
    (tick (tick (processCommand "A" st t0).1 (t0 + 5000))
        (t0 + 10000)).currentState1 = State.YELLOW ∧
    (tick (tick (processCommand "A" st t0).1 (t0 + 5000))
        (t0 + 10000)).currentState2 = State.GREEN ∧
    (tick (tick (processCommand "A" st t0).1 (t0 + 5000))
        (t0 + 10000)).currentStateDuration = YELLOW_DURATION ∧
    (tick (tick (tick (processCommand "A" st t0).1 (t0 + 5000)) (t0 + 10000))
        (t0 + 12000)).currentState1 = State.RED ∧
    (tick (tick (tick (processCommand "A" st t0).1 (t0 + 5000)) (t0 + 10000))
        (t0 + 12000)).currentState2 = State.GREEN ∧
    (tick (tick (tick (processCommand "A" st t0).1 (t0 + 5000)) (t0 + 10000))
        (t0 + 12000)).currentStateDuration = RED_DURATION ∧
    (∀ q : DeviceState,
      ((advanceTrafficLight q).currentState2 = State.GREEN ↔
        ((advanceTrafficLight q).currentState1 = State.RED ∨
         (advanceTrafficLight q).currentState1 = State.YELLOW)) ∧
      ((advanceTrafficLight q).currentState2 = State.RED ↔
        (advanceTrafficLight q).currentState1 = State.GREEN)) := by
  simp only [U32] at h
  have e1 : tick (processCommand "A" st t0).1 (t0 + 5000) =
      { advanceTrafficLight (processCommand "A" st t0).1 with
        lastStateChange := t0 + 5000 } := by
    apply tick_auto_advance
    · rfl
    · show RED_DURATION ≤ u32sub (t0 + 5000) t0
      simp only [RED_DURATION, u32sub, U32]
      omega
  have e2 : tick (tick (processCommand "A" st t0).1 (t0 + 5000)) (t0 + 10000) =
      { advanceTrafficLight (tick (processCommand "A" st t0).1 (t0 + 5000)) with
        lastStateChange := t0 + 10000 } := by
    apply tick_auto_advance
    · rw [e1]; exact rfl
    · rw [e1]
      show GREEN_DURATION ≤ u32sub (t0 + 10000) (t0 + 5000)
      simp only [GREEN_DURATION, u32sub, U32]
      omega
  have e3 : tick (tick (tick (processCommand "A" st t0).1 (t0 + 5000))
        (t0 + 10000)) (t0 + 12000) =
      { advanceTrafficLight (tick (tick (processCommand "A" st t0).1 (t0 + 5000))
          (t0 + 10000)) with lastStateChange := t0 + 12000 } := by
    apply tick_auto_advance
    · rw [e2, e1]; exact rfl
    · rw [e2, e1]
      show YELLOW_DURATION ≤ u32sub (t0 + 12000) (t0 + 10000)
      simp only [YELLOW_DURATION, u32sub, U32]
      omega
  refine ⟨rfl, rfl, rfl, ?_, ?_, ?_, ?_, ?_, ?_, ?_, ?_, ?_, ?_, ?_⟩
  · intro u hu1 hu2
    apply tick_auto_wait
    · rfl
    · show ¬RED_DURATION ≤ u32sub u t0
      simp only [RED_DURATION, u32sub, U32]
      omega
  · rw [e1]; exact rfl
  · rw [e1]; exact rfl
  · rw [e1]; exact rfl
  · rw [e2, e1]; exact rfl
  · rw [e2, e1]; exact rfl
  · rw [e2, e1]; exact rfl
  · rw [e3, e2, e1]; exact rfl
  · rw [e3, e2, e1]; exact rfl
  · rw [e3, e2, e1]; exact rfl
  · intro q
    obtain ⟨m, s1, s2, pv, l, d, eb, pp⟩ := q
    cases s1 <;> simp [advanceTrafficLight]

/-- C2 witness: from the initial state, A at time 0, then iterations at
5000, 10000 and 12000 ms produce GREEN/RED, YELLOW/GREEN and RED/GREEN. -/
theorem auto_cycle_after_A_witness :
    (tick (processCommand "A" (initState 0) 0).1 5000).currentState1
        = State.GREEN ∧
    (tick (processCommand "A" (initState 0) 0).1 5000).currentState2
        = State.RED ∧
    (tick (tick (processCommand "A" (initState 0) 0).1 5000)
        10000).currentState1 = State.YELLOW ∧
    (tick (tick (tick (processCommand "A" (initState 0) 0).1 5000) 10000)
        12000).currentState1 = State.RED ∧
    (tick (tick (tick (processCommand "A" (initState 0) 0).1 5000) 10000)
        12000).currentState2 = State.GREEN := by
  have h := auto_cycle_after_A (initState 0) 0 (by decide)
  exact ⟨h.2.2.2.2.1, h.2.2.2.2.2.1, h.2.2.2.2.2.2.2.1,
         h.2.2.2.2.2.2.2.2.2.2.1, h.2.2.2.2.2.2.2.2.2.2.2.1⟩

end TrafficLights
